import Mathlib

/-
Verification of the BBR congestion-control agent in tcp-bbr.cc against its
natural-language specification.

Embedding conventions:
- C++ `double` is modelled as `ℚ` (exact rational arithmetic); every literal
  appearing in the claims (0.05, 0.25, 1.25, 0.75, 10.0, 1e9) is a dyadic or
  otherwise exactly representable value, so no claim below hinges on binary
  floating-point rounding.
- C++ `int` is modelled as `ℤ`; the double-to-int conversion in
  `cwnd_ = cwnd_gain_ * (max_bandwidth_ * min_rtt_)` and in
  `target_inflight()` truncates toward zero, modelled by `truncQ`.
- The simulation clock and the packet-derived inputs of `recv` are passed as
  explicit parameters `(delivered, rtt, clock)`: the source computes
  `rtt = Scheduler::instance().clock() - hdr_tcp::access(pkt)->ts()` and
  `delivered = hdr_cmn::access(pkt)->size()`, which the embedding receives
  already extracted.
- The function-static counter `cycle` in `cycle_gain()` is process-wide
  mutable state; for a single agent it is threaded through the agent state
  (`cycle` field), and its process-wide sharing across agents is modelled
  separately by `gainsFor`.
- `size_` (the segment size inherited from TcpAgent) is a parameter `size`.
- The calls into the TcpAgent base class (`TcpAgent::recv`,
  `TcpAgent::sendmsg`, `TcpAgent::timeout`) are the external transport
  collaborator in the specification's scope and are not part of the core.
-/

/-- Truncation toward zero of a rational, the semantics of the C++
double-to-int conversion used at `cwnd_ = cwnd_gain_ * (...)` and in
`target_inflight()`. -/
def truncQ (q : ℚ) : ℤ :=
  if 0 ≤ q then ⌊q⌋ else ⌈q⌉

/-- Modelled from the spec: rounding to the nearest integer (halves up), the
operation the specification's Rate/Window Calculator prescribes with
`cwnd = round(cwnd_gain * max_bandwidth * min_rtt)`. The source code instead
truncates; this definition exists to compare the two. -/
def roundSpec (q : ℚ) : ℤ :=
  ⌊q + 1/2⌋

/-- The four BBR states of `enum BbrState`. -/
inductive BbrPhase where
  | STARTUP
  | DRAIN
  | PROBE_BW
  | PROBE_RTT
deriving DecidableEq, Repr

open BbrPhase

@[simp] lemma startup_eq_probe_rtt : (STARTUP = PROBE_RTT) ↔ False := by decide

@[simp] lemma drain_eq_probe_rtt : (DRAIN = PROBE_RTT) ↔ False := by decide

@[simp] lemma probe_bw_eq_probe_rtt : (PROBE_BW = PROBE_RTT) ↔ False := by decide

/-- The mutable state of `TcpBbrAgent`: the protected data members, plus the
function-static `cycle` counter of `cycle_gain()` threaded explicitly. -/
structure BbrState where
  pacing_gain : ℚ
  cwnd_gain : ℚ
  max_bandwidth : ℚ
  min_rtt : ℚ
  pacing_rate : ℚ
  cwnd : ℤ
  state : BbrPhase
  t_last_rtt_probe : ℚ
  t_state_start : ℚ
  cycle : ℤ
deriving DecidableEq, Repr

/-- The member initializers of `TcpBbrAgent::TcpBbrAgent()`:
pacing_gain_(1.0), cwnd_gain_(2.0), max_bandwidth_(0.0), min_rtt_(1e9),
pacing_rate_(0.0), cwnd_(0), state_(STARTUP), t_last_rtt_probe_(0.0),
t_state_start_(0.0); the static cycle counter starts at 0. -/
def initState : BbrState where
  pacing_gain := 1
  cwnd_gain := 2
  max_bandwidth := 0
  min_rtt := 1000000000
  pacing_rate := 0
  cwnd := 0
  state := STARTUP
  t_last_rtt_probe := 0
  t_state_start := 0
  cycle := 0

/-- TcpBbrAgent::update_max_bandwidth: bw = delivered / rtt; if
(bw > max_bandwidth_) max_bandwidth_ = bw. -/
def update_max_bandwidth (mb delivered rtt : ℚ) : ℚ :=
  let bw := delivered / rtt
  if bw > mb then bw else mb

/-- TcpBbrAgent::update_min_rtt: if (rtt < min_rtt_) min_rtt_ = rtt. -/
def update_min_rtt (mr rtt : ℚ) : ℚ :=
  if rtt < mr then rtt else mr

/-- TcpBbrAgent::bandwidth_growth_slows: max_bandwidth_ > 0 && cwnd_ > 10 * size_. -/
def bandwidth_growth_slows (size cwnd : ℤ) (mb : ℚ) : Bool :=
  decide (mb > 0) && decide (cwnd > 10 * size)

/-- TcpBbrAgent::target_inflight: returns max_bandwidth_ * min_rtt_ as int
(truncating conversion). -/
def target_inflight (mb mr : ℚ) : ℤ :=
  truncQ (mb * mr)

/-- TcpBbrAgent::cycle_gain with the function-static counter made explicit:
takes the current counter, returns the advanced counter together with the
gain. cycle = (cycle + 1) % 8; 1.25 at 0, 0.75 at 1, 1.0 otherwise. -/
def cycle_gain (cycle : ℤ) : ℤ × ℚ :=
  let c := (cycle + 1) % 8
  (c, if c = 0 then 5/4 else if c = 1 then 3/4 else 1)

/-- TcpBbrAgent::time_to_probe_rtt: clock - t_last_rtt_probe_ > 10.0. -/
def time_to_probe_rtt (clock tl : ℚ) : Bool :=
  decide (clock - tl > 10)

/-- TcpBbrAgent::rtt_stable_for_long_enough: clock - t_state_start_ > 0.2. -/
def rtt_stable_for_long_enough (clock tss : ℚ) : Bool :=
  decide (clock - tss > 1/5)

/-- The estimator calls at the top of recv: update_max_bandwidth(delivered,
rtt) then update_min_rtt(rtt). -/
def recvUpdates (s : BbrState) (delivered : ℤ) (rtt : ℚ) : BbrState :=
  let s1 := { s with max_bandwidth := update_max_bandwidth s.max_bandwidth (delivered : ℚ) rtt }
  { s1 with min_rtt := update_min_rtt s1.min_rtt rtt }

/-- Line 52 of recv: if (state_ != PROBE_RTT) t_state_start_ = clock. -/
def restamp (clock : ℚ) (s : BbrState) : BbrState :=
  if s.state ≠ PROBE_RTT then { s with t_state_start := clock } else s

/-- The switch (state_) block of recv, lines 55-83. -/
def recvSwitch (size : ℤ) (clock : ℚ) (s : BbrState) : BbrState :=
  match s.state with
  | STARTUP =>
      if bandwidth_growth_slows size s.cwnd s.max_bandwidth then
        { s with state := DRAIN, t_state_start := clock }
      else s
  | DRAIN =>
      if s.cwnd ≤ target_inflight s.max_bandwidth s.min_rtt then
        { s with state := PROBE_BW, t_state_start := clock }
      else s
  | PROBE_BW =>
      let g := cycle_gain s.cycle
      let s2 := { s with pacing_gain := g.2, cycle := g.1 }
      if time_to_probe_rtt clock s2.t_last_rtt_probe then
        { s2 with state := PROBE_RTT, t_last_rtt_probe := clock, t_state_start := clock }
      else s2
  | PROBE_RTT =>
      let s2 := { s with cwnd := 4 * size }
      if rtt_stable_for_long_enough clock s2.t_state_start then
        { s2 with state := PROBE_BW, t_state_start := clock }
      else s2

/-- Lines 86-87 of recv: cwnd_ = cwnd_gain_ * (max_bandwidth_ * min_rtt_)
(truncating double-to-int conversion); if (cwnd_ < size_) cwnd_ = size_. -/
def recvCwnd (size : ℤ) (s : BbrState) : BbrState :=
  let cw := truncQ (s.cwnd_gain * (s.max_bandwidth * s.min_rtt))
  let cw2 := if cw < size then size else cw
  { s with cwnd := cw2 }

/-- TcpBbrAgent::recv: estimator updates, t_state_start_ restamp, the state
machine switch, then the unconditional congestion-window recomputation.
The trailing TcpAgent::recv call is the external collaborator. -/
def recv (size : ℤ) (s : BbrState) (delivered : ℤ) (rtt clock : ℚ) : BbrState :=
  recvCwnd size (recvSwitch size clock (restamp clock (recvUpdates s delivered rtt)))

/-- TcpBbrAgent::sendmsg: pacing_rate_ = pacing_gain_ * max_bandwidth_; the
trailing TcpAgent::sendmsg call is the external collaborator. -/
def sendmsg (s : BbrState) : BbrState :=
  { s with pacing_rate := s.pacing_gain * s.max_bandwidth }

/-- A delivery-sample event as seen by the core: the values the collaborator
layer extracts from the packet plus the clock at the event. -/
structure Event where
  delivered : ℤ
  rtt : ℚ
  now : ℚ
deriving DecidableEq, Repr

/-- A run of the agent: recv applied to each event in order, from the freshly
constructed state. -/
def runBbr (size : ℤ) (es : List Event) : BbrState :=
  es.foldl (fun s e => recv size s e.delivered e.rtt e.now) initState

/-- The sequence of gains produced by n successive cycle_gain() calls
starting from counter value g. -/
def gainSeq : Nat → ℤ → List ℚ
  | 0, _ => []
  | n + 1, g => (cycle_gain g).2 :: gainSeq n (cycle_gain g).1

/-- The counter value after n successive cycle_gain() calls starting from g. -/
def cycleAfter : Nat → ℤ → ℤ
  | 0, g => g
  | n + 1, g => cycleAfter n (cycle_gain g).1

/-- Two agents A (true) and B (false) interleaving calls to cycle_gain(),
which in the source shares one process-wide static counter between them: a
schedule is a list of callers, the counter is threaded through all calls, and
the result is the list of gains observed by the caller `who`. -/
def gainsFor (who : Bool) : List Bool → ℤ → List ℚ
  | [], _ => []
  | t :: ts, g =>
      if t = who then (cycle_gain g).2 :: gainsFor who ts (cycle_gain g).1
      else gainsFor who ts (cycle_gain g).1

/-- A concrete valid run driving the agent through STARTUP, DRAIN and
PROBE_BW into PROBE_RTT (segment size 1). -/
def probeRttRun : List Event :=
  [⟨100, 1, 1⟩, ⟨100, 1, 2⟩, ⟨300, 1, 3⟩, ⟨300, 1, 20⟩]

section StageLemmas

variable (size : ℤ) (s : BbrState) (delivered : ℤ) (rtt clock : ℚ)

lemma recvUpdates_max_bandwidth :
    (recvUpdates s delivered rtt).max_bandwidth =
      update_max_bandwidth s.max_bandwidth (delivered : ℚ) rtt := rfl

lemma recvUpdates_min_rtt :
    (recvUpdates s delivered rtt).min_rtt = update_min_rtt s.min_rtt rtt := rfl

lemma recvUpdates_pacing_rate :
    (recvUpdates s delivered rtt).pacing_rate = s.pacing_rate := rfl

lemma recvUpdates_cwnd_gain :
    (recvUpdates s delivered rtt).cwnd_gain = s.cwnd_gain := rfl

lemma recvUpdates_state :
    (recvUpdates s delivered rtt).state = s.state := rfl

lemma recvUpdates_t_last :
    (recvUpdates s delivered rtt).t_last_rtt_probe = s.t_last_rtt_probe := rfl

lemma recvUpdates_cycle :
    (recvUpdates s delivered rtt).cycle = s.cycle := rfl

lemma restamp_max_bandwidth :
    (restamp clock s).max_bandwidth = s.max_bandwidth := by
  unfold restamp; split <;> rfl

lemma restamp_min_rtt : (restamp clock s).min_rtt = s.min_rtt := by
  unfold restamp; split <;> rfl

lemma restamp_pacing_rate : (restamp clock s).pacing_rate = s.pacing_rate := by
  unfold restamp; split <;> rfl

lemma restamp_cwnd_gain : (restamp clock s).cwnd_gain = s.cwnd_gain := by
  unfold restamp; split <;> rfl

lemma restamp_state : (restamp clock s).state = s.state := by
  unfold restamp; split <;> rfl

lemma restamp_t_last : (restamp clock s).t_last_rtt_probe = s.t_last_rtt_probe := by
  unfold restamp; split <;> rfl

lemma restamp_cycle : (restamp clock s).cycle = s.cycle := by
  unfold restamp; split <;> rfl

lemma recvSwitch_max_bandwidth :
    (recvSwitch size clock s).max_bandwidth = s.max_bandwidth := by
  rcases s with ⟨pg, cg, mb, mr, pr, cw, st, tl, tss, cyc⟩
  cases st <;> simp only [recvSwitch] <;> split <;> rfl

lemma recvSwitch_min_rtt :
    (recvSwitch size clock s).min_rtt = s.min_rtt := by
  rcases s with ⟨pg, cg, mb, mr, pr, cw, st, tl, tss, cyc⟩
  cases st <;> simp only [recvSwitch] <;> split <;> rfl

lemma recvSwitch_pacing_rate :
    (recvSwitch size clock s).pacing_rate = s.pacing_rate := by
  rcases s with ⟨pg, cg, mb, mr, pr, cw, st, tl, tss, cyc⟩
  cases st <;> simp only [recvSwitch] <;> split <;> rfl

lemma recvSwitch_cwnd_gain :
    (recvSwitch size clock s).cwnd_gain = s.cwnd_gain := by
  rcases s with ⟨pg, cg, mb, mr, pr, cw, st, tl, tss, cyc⟩
  cases st <;> simp only [recvSwitch] <;> split <;> rfl

lemma recvCwnd_max_bandwidth :
    (recvCwnd size s).max_bandwidth = s.max_bandwidth := rfl

lemma recvCwnd_min_rtt : (recvCwnd size s).min_rtt = s.min_rtt := rfl

lemma recvCwnd_pacing_rate : (recvCwnd size s).pacing_rate = s.pacing_rate := rfl

lemma recvCwnd_pacing_gain : (recvCwnd size s).pacing_gain = s.pacing_gain := rfl

lemma recvCwnd_cwnd_gain : (recvCwnd size s).cwnd_gain = s.cwnd_gain := rfl

lemma recvCwnd_state : (recvCwnd size s).state = s.state := rfl

lemma recvCwnd_t_last : (recvCwnd size s).t_last_rtt_probe = s.t_last_rtt_probe := rfl

lemma recvCwnd_cwnd :
    (recvCwnd size s).cwnd =
      if truncQ (s.cwnd_gain * (s.max_bandwidth * s.min_rtt)) < size then size
      else truncQ (s.cwnd_gain * (s.max_bandwidth * s.min_rtt)) := rfl

lemma recv_max_bandwidth :
    (recv size s delivered rtt clock).max_bandwidth =
      update_max_bandwidth s.max_bandwidth (delivered : ℚ) rtt := by
  unfold recv
  rw [recvCwnd_max_bandwidth, recvSwitch_max_bandwidth, restamp_max_bandwidth,
    recvUpdates_max_bandwidth]

lemma recv_min_rtt :
    (recv size s delivered rtt clock).min_rtt = update_min_rtt s.min_rtt rtt := by
  unfold recv
  rw [recvCwnd_min_rtt, recvSwitch_min_rtt, restamp_min_rtt, recvUpdates_min_rtt]

lemma recv_pacing_rate :
    (recv size s delivered rtt clock).pacing_rate = s.pacing_rate := by
  unfold recv
  rw [recvCwnd_pacing_rate, recvSwitch_pacing_rate, restamp_pacing_rate,
    recvUpdates_pacing_rate]

lemma recv_cwnd_gain :
    (recv size s delivered rtt clock).cwnd_gain = s.cwnd_gain := by
  unfold recv
  rw [recvCwnd_cwnd_gain, recvSwitch_cwnd_gain, restamp_cwnd_gain,
    recvUpdates_cwnd_gain]

lemma recv_cwnd :
    (recv size s delivered rtt clock).cwnd =
      if truncQ (s.cwnd_gain *
          (update_max_bandwidth s.max_bandwidth (delivered : ℚ) rtt *
            update_min_rtt s.min_rtt rtt)) < size then size
      else truncQ (s.cwnd_gain *
          (update_max_bandwidth s.max_bandwidth (delivered : ℚ) rtt *
            update_min_rtt s.min_rtt rtt)) := by
  unfold recv
  rw [recvCwnd_cwnd, recvSwitch_cwnd_gain, restamp_cwnd_gain, recvUpdates_cwnd_gain,
    recvSwitch_max_bandwidth, restamp_max_bandwidth, recvUpdates_max_bandwidth,
    recvSwitch_min_rtt, restamp_min_rtt, recvUpdates_min_rtt]

lemma size_le_recv_cwnd : size ≤ (recv size s delivered rtt clock).cwnd := by
  rw [recv_cwnd]; split <;> omega

lemma update_max_bandwidth_ge (mb d r : ℚ) : mb ≤ update_max_bandwidth mb d r := by
  show mb ≤ if d / r > mb then d / r else mb
  split
  · exact le_of_lt (by assumption)
  · exact le_rfl

lemma update_min_rtt_le (mr r : ℚ) : update_min_rtt mr r ≤ mr := by
  unfold update_min_rtt
  split
  · exact le_of_lt (by assumption)
  · exact le_rfl

lemma ite_lt_eq_max (a b : ℤ) : (if a < b then b else a) = max a b := by
  split <;> omega

end StageLemmas

lemma sendmsg_pacing_rate (s : BbrState) :
    (sendmsg s).pacing_rate = s.pacing_gain * s.max_bandwidth := rfl

lemma recv_cwnd_eq_max (size : ℤ) (s : BbrState) (delivered : ℤ) (rtt clock : ℚ) :
    (recv size s delivered rtt clock).cwnd =
      max (truncQ (s.cwnd_gain * ((recv size s delivered rtt clock).max_bandwidth *
        (recv size s delivered rtt clock).min_rtt))) size := by
  rw [recv_cwnd, recv_max_bandwidth, recv_min_rtt, ite_lt_eq_max]

lemma runBbr_append_single (size : ℤ) (es : List Event) (e : Event) :
    runBbr size (es ++ [e]) =
      recv size (runBbr size es) e.delivered e.rtt e.now := by
  unfold runBbr
  rw [List.foldl_append]
  rfl

lemma recvSwitch_probe_bw (size : ℤ) (clock : ℚ) (s : BbrState)
    (hs : s.state = PROBE_BW) (h10 : 10 < clock - s.t_last_rtt_probe) :
    recvSwitch size clock s =
      { s with pacing_gain := (cycle_gain s.cycle).2, cycle := (cycle_gain s.cycle).1,
               state := PROBE_RTT, t_last_rtt_probe := clock, t_state_start := clock } := by
  rcases s with ⟨pg, cg, mb, mr, pr, cw, st, tl, tss, cyc⟩
  dsimp only at hs h10 ⊢
  subst hs
  dsimp only [recvSwitch]
  rw [if_pos (by simpa [time_to_probe_rtt] using h10)]

lemma gainSeq_add (m n : Nat) (g : ℤ) :
    gainSeq (m + n) g = gainSeq m g ++ gainSeq n (cycleAfter m g) := by
  induction m generalizing g with
  | zero => simp [gainSeq, cycleAfter, Nat.zero_add]
  | succ m ih =>
      rw [Nat.succ_add]
      simp [gainSeq, cycleAfter, ih]

lemma cycleAfter_add (m n : Nat) (g : ℤ) :
    cycleAfter (m + n) g = cycleAfter n (cycleAfter m g) := by
  induction m generalizing g with
  | zero => simp [cycleAfter, Nat.zero_add]
  | succ m ih =>
      rw [Nat.succ_add]
      simp [cycleAfter, ih]

lemma cycleAfter_eight : cycleAfter 8 0 = 0 := by
  norm_num [cycleAfter, cycle_gain]

lemma cycleAfter_eight_mul (k : Nat) : cycleAfter (8 * k) 0 = 0 := by
  induction k with
  | zero => rfl
  | succ k ih => rw [Nat.mul_succ, cycleAfter_add, ih, cycleAfter_eight]

lemma gainSeq_eight : gainSeq 8 0 = [3/4, 1, 1, 1, 1, 1, 1, 5/4] := by
  norm_num [gainSeq, cycle_gain]

lemma scenarioA_eval : recv 1000 initState 5000 (1/20) 1 =
    { pacing_gain := 1, cwnd_gain := 2, max_bandwidth := 100000, min_rtt := 1/20,
      pacing_rate := 0, cwnd := 10000, state := STARTUP, t_last_rtt_probe := 0,
      t_state_start := 1, cycle := 0 } := by
  norm_num [recv, recvCwnd, recvSwitch, restamp, recvUpdates, update_max_bandwidth,
    update_min_rtt, bandwidth_growth_slows, truncQ, initState]

lemma invalidSample_eval : recv 1000 initState 0 1 1 =
    { pacing_gain := 1, cwnd_gain := 2, max_bandwidth := 0, min_rtt := 1,
      pacing_rate := 0, cwnd := 1000, state := STARTUP, t_last_rtt_probe := 0,
      t_state_start := 1, cycle := 0 } := by
  norm_num [recv, recvCwnd, recvSwitch, restamp, recvUpdates, update_max_bandwidth,
    update_min_rtt, bandwidth_growth_slows, truncQ, initState]

lemma probeRun3_eval : runBbr 1 (probeRttRun.take 3) =
    { pacing_gain := 1, cwnd_gain := 2, max_bandwidth := 300, min_rtt := 1,
      pacing_rate := 0, cwnd := 600, state := PROBE_BW, t_last_rtt_probe := 0,
      t_state_start := 3, cycle := 0 } := by
  norm_num [runBbr, probeRttRun, recv, recvCwnd, recvSwitch, restamp, recvUpdates,
    update_max_bandwidth, update_min_rtt, bandwidth_growth_slows, target_inflight,
    truncQ, time_to_probe_rtt, rtt_stable_for_long_enough, cycle_gain, initState]

lemma probeRun4_eval :
    recv 1 (runBbr 1 (probeRttRun.take 3)) 300 1 20 =
    { pacing_gain := 3/4, cwnd_gain := 2, max_bandwidth := 300, min_rtt := 1,
      pacing_rate := 0, cwnd := 600, state := PROBE_RTT, t_last_rtt_probe := 20,
      t_state_start := 20, cycle := 1 } := by
  rw [probeRun3_eval]
  norm_num [recv, recvCwnd, recvSwitch, restamp, recvUpdates, update_max_bandwidth,
    update_min_rtt, truncQ, time_to_probe_rtt, cycle_gain]

lemma probeRun_eval : runBbr 1 probeRttRun =
    { pacing_gain := 3/4, cwnd_gain := 2, max_bandwidth := 300, min_rtt := 1,
      pacing_rate := 0, cwnd := 600, state := PROBE_RTT, t_last_rtt_probe := 20,
      t_state_start := 20, cycle := 1 } := by
  have h : probeRttRun = probeRttRun.take 3 ++ [⟨300, 1, 20⟩] := by
    norm_num [probeRttRun]
  rw [h, runBbr_append_single]
  exact probeRun4_eval

lemma truncRun1_eval : recv 1 initState 1 (1/4) 1 =
    { pacing_gain := 1, cwnd_gain := 2, max_bandwidth := 4, min_rtt := 1/4,
      pacing_rate := 0, cwnd := 2, state := STARTUP, t_last_rtt_probe := 0,
      t_state_start := 1, cycle := 0 } := by
  norm_num [recv, recvCwnd, recvSwitch, restamp, recvUpdates, update_max_bandwidth,
    update_min_rtt, bandwidth_growth_slows, truncQ, initState]

lemma truncRun2_eval : recv 1 (recv 1 initState 1 (1/4) 1) 19 1 2 =
    { pacing_gain := 1, cwnd_gain := 2, max_bandwidth := 19, min_rtt := 1/4,
      pacing_rate := 0, cwnd := 9, state := STARTUP, t_last_rtt_probe := 0,
      t_state_start := 2, cycle := 0 } := by
  rw [truncRun1_eval]
  norm_num [recv, recvCwnd, recvSwitch, restamp, recvUpdates, update_max_bandwidth,
    update_min_rtt, bandwidth_growth_slows, truncQ]

/-- Claim C1 (code_bug evaluation): the code does not reject an invalid
delivery sample. On the invalid sample delivered = 0 (rtt = 1) from the fresh
state, recv changes min_rtt (to the sample rtt 1) and changes cwnd (to
segment_size 1000), and recv has no error signal at all; the claim requires
max_bandwidth, min_rtt, pacing_rate and cwnd to be left unchanged and the
invalid-sample condition to be reported. At rtt = 0 the code even computes
delivered/0 inside update_max_bandwidth. -/
theorem claimC1_invalid_sample_corrupts_state :
    (recv 1000 initState 0 1 1).min_rtt ≠ initState.min_rtt ∧
    (recv 1000 initState 0 1 1).min_rtt = 1 ∧
    (recv 1000 initState 0 1 1).cwnd ≠ initState.cwnd ∧
    (recv 1000 initState 0 1 1).cwnd = 1000 := by
  rw [invalidSample_eval]
  norm_num [initState]

/-- Claim C2 (counterexample): a reachable state with phase PROBE_RTT whose
cwnd is not 4 x segment_size. With segment size 1, the valid run probeRttRun
ends in PROBE_RTT with cwnd = 600, because the final cwnd recomputation of
recv runs in every phase. -/
theorem claimC2_counterexample :
    (∀ e ∈ probeRttRun, 0 < e.delivered ∧ 0 < e.rtt) ∧
    (runBbr 1 probeRttRun).state = PROBE_RTT ∧
    (runBbr 1 probeRttRun).cwnd ≠ 4 * 1 := by
  rw [probeRun_eval]
  norm_num [probeRttRun]

/-- Claim C2 (amended): in every state reached by at least one
delivery-sample event from the fresh controller, cwnd ≥ segment_size — in
every phase, PROBE_RTT included; the claimed cwnd = 4 x segment_size equality
inside PROBE_RTT does not hold, as the counterexample shows. -/
theorem claimC2_window_floor (size : ℤ) (es : List Event) (e : Event)
    (hvalid : ∀ x ∈ es ++ [e], 0 < x.delivered ∧ 0 < x.rtt) :
    size ≤ (runBbr size (es ++ [e])).cwnd := by
  rw [runBbr_append_single]
  exact size_le_recv_cwnd _ _ _ _ _

/-- Claim C2 witness: the window floor at a concrete one-event valid run. -/
theorem claimC2_window_floor_witness :
    (∀ x ∈ (([] : List Event) ++ [{ delivered := 1, rtt := 1, now := 1 }]),
      0 < x.delivered ∧ 0 < x.rtt) ∧
    (1000 : ℤ) ≤ (runBbr 1000 (([] : List Event) ++
      [{ delivered := 1, rtt := 1, now := 1 }])).cwnd :=
  ⟨by norm_num, claimC2_window_floor 1000 [] { delivered := 1, rtt := 1, now := 1 }
    (by norm_num)⟩

/-- Claim C3 (counterexample): after the first delivery sample of Scenario A,
the published pacing_rate (still 0) differs from pacing_gain x max_bandwidth
(1 x 100000): recv does not recompute pacing_rate. -/
theorem claimC3_counterexample :
    (recv 1000 initState 5000 (1/20) 1).pacing_rate ≠
      (recv 1000 initState 5000 (1/20) 1).pacing_gain *
        (recv 1000 initState 5000 (1/20) 1).max_bandwidth := by
  rw [scenarioA_eval]
  norm_num

/-- Claim C3 (amended): a delivery-sample event leaves pacing_rate unchanged;
pacing_rate is recomputed as pacing_gain x max_bandwidth only at the next
send event (sendmsg), at which point it equals pacing_gain x max_bandwidth of
the updated state. -/
theorem claimC3_pacing_rate_on_send (size : ℤ) (s : BbrState) (delivered : ℤ)
    (rtt clock : ℚ) :
    (recv size s delivered rtt clock).pacing_rate = s.pacing_rate ∧
    (sendmsg (recv size s delivered rtt clock)).pacing_rate =
      (recv size s delivered rtt clock).pacing_gain *
        (recv size s delivered rtt clock).max_bandwidth :=
  ⟨recv_pacing_rate size s delivered rtt clock, sendmsg_pacing_rate _⟩

/-- Claim C4 (counterexample): the first 8 calls of cycle_gain() from the
fresh counter do not return 1.0, 1.25, 0.75, 1.0, 1.0, 1.0, 1.0, 1.0 — the
counter advances before the gain is read, so the first call already returns
0.75 and 1.25 only appears when the counter wraps to 0 on the eighth call. -/
theorem claimC4_counterexample :
    gainSeq 8 0 ≠ [1, 5/4, 3/4, 1, 1, 1, 1, 1] := by
  rw [gainSeq_eight]
  norm_num

/-- Claim C4 (amended): from the fresh counter the first 8 calls of
cycle_gain() return 0.75, 1.0, 1.0, 1.0, 1.0, 1.0, 1.0, 1.25, and every
subsequent block of 8 calls repeats that same 8-element sequence. -/
theorem claimC4_cycle_sequence :
    gainSeq 8 0 = [3/4, 1, 1, 1, 1, 1, 1, 5/4] ∧
    ∀ k : Nat, gainSeq (8 * k + 8) 0 = gainSeq (8 * k) 0 ++
      [3/4, 1, 1, 1, 1, 1, 1, 5/4] := by
  refine ⟨gainSeq_eight, fun k => ?_⟩
  rw [gainSeq_add, cycleAfter_eight_mul, gainSeq_eight]

/-- Claim C5: on every delivery-sample event with delivered > 0 and rtt > 0,
max_bandwidth does not decrease and min_rtt does not increase; applied after
each call of any sequence of valid samples this is the claimed monotonicity. -/
theorem claimC5_estimator_monotone (size : ℤ) (s : BbrState) (delivered : ℤ)
    (rtt clock : ℚ) (hdelivered : 0 < delivered) (hrtt : 0 < rtt) :
    s.max_bandwidth ≤ (recv size s delivered rtt clock).max_bandwidth ∧
    (recv size s delivered rtt clock).min_rtt ≤ s.min_rtt := by
  rw [recv_max_bandwidth, recv_min_rtt]
  exact ⟨update_max_bandwidth_ge _ _ _, update_min_rtt_le _ _⟩

/-- Claim C5 witness: monotonicity at the concrete Scenario A sample. -/
theorem claimC5_estimator_monotone_witness :
    (0 : ℤ) < 5000 ∧ (0 : ℚ) < 1/20 ∧
    (initState.max_bandwidth ≤ (recv 1000 initState 5000 (1/20) 1).max_bandwidth ∧
      (recv 1000 initState 5000 (1/20) 1).min_rtt ≤ initState.min_rtt) :=
  ⟨by norm_num, by norm_num,
    claimC5_estimator_monotone 1000 initState 5000 (1/20) 1 (by norm_num) (by norm_num)⟩

/-- Claim C6 (counterexample): in Scenario A the pacing_rate after the sample
is 0, not 100000 — recv never writes pacing_rate. -/
theorem claimC6_counterexample :
    (recv 1000 initState 5000 (1/20) 1).pacing_rate ≠ 100000 := by
  rw [scenarioA_eval]
  norm_num

/-- Claim C6 (amended): Scenario A — fresh controller with segment_size 1000,
one sample (delivered 5000, rtt 0.05) gives max_bandwidth = 100000 and
cwnd = 10000 as claimed, but pacing_rate stays 0 after the sample and becomes
100000 (gain 1.0 x max_bandwidth) only at the next send event. -/
theorem claimC6_scenarioA :
    (recv 1000 initState 5000 (1/20) 1).max_bandwidth = 100000 ∧
    (recv 1000 initState 5000 (1/20) 1).cwnd = 10000 ∧
    (recv 1000 initState 5000 (1/20) 1).pacing_rate = 0 ∧
    (sendmsg (recv 1000 initState 5000 (1/20) 1)).pacing_rate = 100000 := by
  rw [scenarioA_eval]
  norm_num [sendmsg]

/-- Claim C7 (counterexample): outside PROBE_RTT the code truncates rather
than rounds. With segment size 1 and the samples (1, rtt 1/4) then (19, rtt 1)
— both from STARTUP — the final estimates are max_bandwidth = 19 and
min_rtt = 1/4, so 2 x 19 x 1/4 = 9.5: the code stores cwnd = 9 while the
claimed round-to-nearest formula gives 10. -/
theorem claimC7_counterexample :
    (recv 1 initState 1 (1/4) 1).state ≠ PROBE_RTT ∧
    (recv 1 (recv 1 initState 1 (1/4) 1) 19 1 2).cwnd ≠
      max (roundSpec ((recv 1 (recv 1 initState 1 (1/4) 1) 19 1 2).cwnd_gain *
        ((recv 1 (recv 1 initState 1 (1/4) 1) 19 1 2).max_bandwidth *
          (recv 1 (recv 1 initState 1 (1/4) 1) 19 1 2).min_rtt))) 1 := by
  rw [truncRun2_eval, truncRun1_eval]
  norm_num [roundSpec, max_def]

/-- Claim C7 (amended): on every delivery-sample event from a state outside
PROBE_RTT with cwnd_gain = 2.0, the new cwnd is the truncation toward zero
(C++ double-to-int conversion) of 2.0 x max_bandwidth x min_rtt of the
updated state, clamped below by segment_size — truncation, not rounding to
the nearest integer. -/
theorem claimC7_cwnd_truncated (size : ℤ) (s : BbrState) (delivered : ℤ)
    (rtt clock : ℚ) (hphase : s.state ≠ PROBE_RTT) (hgain : s.cwnd_gain = 2) :
    (recv size s delivered rtt clock).cwnd =
      max (truncQ (2 * ((recv size s delivered rtt clock).max_bandwidth *
        (recv size s delivered rtt clock).min_rtt))) size := by
  rw [← hgain]
  exact recv_cwnd_eq_max size s delivered rtt clock

/-- Claim C7 witness: the truncated window formula at the Scenario A input. -/
theorem claimC7_cwnd_truncated_witness :
    initState.state ≠ PROBE_RTT ∧ initState.cwnd_gain = 2 ∧
    (recv 1000 initState 5000 (1/20) 1).cwnd =
      max (truncQ (2 * ((recv 1000 initState 5000 (1/20) 1).max_bandwidth *
        (recv 1000 initState 5000 (1/20) 1).min_rtt))) 1000 :=
  ⟨by norm_num [initState], by norm_num [initState],
    claimC7_cwnd_truncated 1000 initState 5000 (1/20) 1
      (by norm_num [initState]) (by norm_num [initState])⟩

/-- Claim C8 (counterexample): from the reachable PROBE_BW state of
probeRttRun (segment size 1), the sample at now = 20 with
now - last_rtt_probe_time = 20 > 10 does transition to PROBE_RTT and does set
last_rtt_probe_time = now, but cwnd on that same event is 600, not
4 x segment_size = 4. -/
theorem claimC8_counterexample :
    (runBbr 1 (probeRttRun.take 3)).state = PROBE_BW ∧
    (10 : ℚ) < 20 - (runBbr 1 (probeRttRun.take 3)).t_last_rtt_probe ∧
    (recv 1 (runBbr 1 (probeRttRun.take 3)) 300 1 20).state = PROBE_RTT ∧
    (recv 1 (runBbr 1 (probeRttRun.take 3)) 300 1 20).t_last_rtt_probe = 20 ∧
    (recv 1 (runBbr 1 (probeRttRun.take 3)) 300 1 20).cwnd ≠ 4 * 1 := by
  rw [probeRun4_eval, probeRun3_eval]
  norm_num

/-- Claim C8 (amended): in PROBE_BW, a delivery sample with
now - last_rtt_probe_time > 10 transitions the phase to PROBE_RTT and sets
last_rtt_probe_time = now on that same call; cwnd on that same event is not
forced to 4 x segment_size but set by the calculator to
max(trunc(cwnd_gain x max_bandwidth x min_rtt), segment_size). -/
theorem claimC8_probe_rtt_transition (size : ℤ) (s : BbrState) (delivered : ℤ)
    (rtt clock : ℚ) (hstate : s.state = PROBE_BW)
    (helapsed : 10 < clock - s.t_last_rtt_probe) :
    (recv size s delivered rtt clock).state = PROBE_RTT ∧
    (recv size s delivered rtt clock).t_last_rtt_probe = clock ∧
    (recv size s delivered rtt clock).cwnd =
      max (truncQ (s.cwnd_gain * ((recv size s delivered rtt clock).max_bandwidth *
        (recv size s delivered rtt clock).min_rtt))) size := by
  have hs2 : (restamp clock (recvUpdates s delivered rtt)).state = PROBE_BW := by
    rw [restamp_state, recvUpdates_state, hstate]
  have ht2 : 10 < clock - (restamp clock (recvUpdates s delivered rtt)).t_last_rtt_probe := by
    rw [restamp_t_last, recvUpdates_t_last]; exact helapsed
  refine ⟨?_, ?_, recv_cwnd_eq_max size s delivered rtt clock⟩
  · show (recvCwnd size (recvSwitch size clock
      (restamp clock (recvUpdates s delivered rtt)))).state = PROBE_RTT
    rw [recvCwnd_state, recvSwitch_probe_bw size clock _ hs2 ht2]
  · show (recvCwnd size (recvSwitch size clock
      (restamp clock (recvUpdates s delivered rtt)))).t_last_rtt_probe = clock
    rw [recvCwnd_t_last, recvSwitch_probe_bw size clock _ hs2 ht2]

/-- A hand-built PROBE_BW state used to witness the PROBE_RTT transition. -/
def probeBwState : BbrState := { initState with
  state := PROBE_BW, max_bandwidth := 300, min_rtt := 1, cwnd := 600 }

/-- Claim C8 witness: the PROBE_BW to PROBE_RTT transition at a concrete
state and sample. -/
theorem claimC8_probe_rtt_transition_witness :
    probeBwState.state = PROBE_BW ∧
    (10 : ℚ) < 20 - probeBwState.t_last_rtt_probe ∧
    ((recv 1 probeBwState 300 1 20).state = PROBE_RTT ∧
      (recv 1 probeBwState 300 1 20).t_last_rtt_probe = 20 ∧
      (recv 1 probeBwState 300 1 20).cwnd =
        max (truncQ (probeBwState.cwnd_gain *
          ((recv 1 probeBwState 300 1 20).max_bandwidth *
            (recv 1 probeBwState 300 1 20).min_rtt))) 1) :=
  ⟨rfl, by norm_num [probeBwState, initState],
    claimC8_probe_rtt_transition 1 probeBwState 300 1 20 rfl
      (by norm_num [probeBwState, initState])⟩

/-- Claim C9 (code_bug evaluation): the cycle counter in cycle_gain() is a
function-static, process-wide variable shared by all agent instances, so one
agent's calls shift another's gain sequence. Concretely: if agent B calls
cycle_gain() once and then agent A calls it once, A observes gain 1.0; if B
makes no calls, A's first call returns 0.75. The claim (and the spec's
required per-instance probe_cycle_index) would make the two equal. -/
theorem claimC9_shared_cycle_counter :
    gainsFor true [false, true] 0 ≠ gainsFor true [true] 0 := by
  norm_num [gainsFor, cycle_gain]

/-- Claim C10: the freshly constructed controller reports cwnd = 0 and
pacing_rate = 0; with any positive segment_size the window floor
cwnd ≥ segment_size fails in the initial state, and it holds right after the
first processed sample. -/
theorem claimC10_initial_state (size delivered : ℤ) (rtt clock : ℚ)
    (hsize : 0 < size) :
    initState.cwnd = 0 ∧ initState.pacing_rate = 0 ∧ initState.cwnd < size ∧
    size ≤ (recv size initState delivered rtt clock).cwnd :=
  ⟨rfl, rfl, hsize, size_le_recv_cwnd _ _ _ _ _⟩

/-- Claim C10 witness: the initial-state facts at segment_size 1000 and the
Scenario A sample. -/
theorem claimC10_initial_state_witness :
    (0 : ℤ) < 1000 ∧
    (initState.cwnd = 0 ∧ initState.pacing_rate = 0 ∧ initState.cwnd < 1000 ∧
      (1000 : ℤ) ≤ (recv 1000 initState 5000 (1/20) 1).cwnd) :=
  ⟨by norm_num, claimC10_initial_state 1000 5000 (1/20) 1 (by norm_num)⟩
